import Mathlib

/-!
Shallow embedding of `src/minimal/mod.rs` from fedora-coreos-pinger.

The module defines the `Identity` record together with its constructors
`Identity::new` and `Identity::try_default`, the flattening getter
`Identity::get_data`, and the test-only constructor `Identity::mock_default`.

The sub-resolvers `platform::get_platform`, `os_release::read_original_os_version`,
`rpm_ostree::booted().version` and `instance_type::read_instance_type` live in
modules that are not part of the shown source; `try_default` only sequences
their results with the `?` operator, so they are embedded as oracle
parameters of type `Except PingerError String` (respectively a function of the
platform string for the instance-type resolver, since the metadata path is a
compiled-in constant).  Each Rust `expr?` is embedded as an explicit `match`
on the `Except` value, returning the error early, which is exactly the
desugaring of `?`.  The `.context(msg)` combinator of the `failure` crate
wraps an error value with a contextual message and is embedded as
`withContext`.

`get_data` returns a `HashMap<String, String>`; it is embedded as the
association list built in the order of the `maplit::hashmap!` literal.  The
five keys are pairwise distinct string literals, so equality of the
association lists coincides with equality of the finite maps, and
`List.lookup` coincides with `HashMap::get`.  The trailing
`match self.level.as_str() { "minimal" | "full" => (), _ => () }` in the Rust
source is a no-op (every arm returns unit and the result is discarded), so it
contributes nothing to the embedded function.
-/

/-- Error kinds of the identity resolver: I/O failure, parse failure,
external-query failure, and an error wrapped with a contextual message
(the `failure` crate's `.context`). -/
inductive PingerError where
  | ioError : String → PingerError
  | parseError : String → PingerError
  | extQueryError : String → PingerError
  | context : String → PingerError → PingerError
  deriving DecidableEq, Repr

/-- The `.context(msg)` combinator: wrap the error of a fallible result with a
contextual message; a success passes through unchanged. -/
def withContext (msg : String) : Except PingerError α → Except PingerError α
  | .error e => .error (.context msg e)
  | .ok a => .ok a

/-- The set of recognized cloud providers, as matched on
line 52 of `src/minimal/mod.rs`. -/
def cloudPlatforms : List String := ["aliyun", "aws", "azure", "gcp", "openstack"]

/-- Agent identity (struct `Identity`). -/
structure Identity where
  level : String
  platform : String
  original_os_version : String
  current_os_version : String
  instance_type : Option String
  deriving DecidableEq, Repr

/-- Lines 51-54 of `src/minimal/mod.rs`: conditionally resolve the instance
type.  `it` is the oracle for `instance_type::read_instance_type`
(already applied to the constant metadata path). -/
def instTypeOf (it : String → Except PingerError String) (platform : String) :
    Except PingerError (Option String) :=
  match platform with
  | "aliyun" | "aws" | "azure" | "gcp" | "openstack" =>
    match it platform with
    | .error e => .error e
    | .ok t => .ok (some t)
  | _ => .ok none

/-- `Identity::try_default` (lines 47-74).  `gp`, `ro`, `bv` are the oracles
for `platform::get_platform(KERNEL_ARGS_FILE)`,
`os_release::read_original_os_version(OS_ALEPH_VERSION_FILE)` and
`rpm_ostree::booted()?.version`; `it` is the instance-type oracle. -/
def Identity.try_default (gp ro bv : Except PingerError String)
    (it : String → Except PingerError String) (level : String) :
    Except PingerError Identity :=
  match gp with
  | .error e => .error e
  | .ok platform =>
    match ro with
    | .error e => .error e
    | .ok original_os_version =>
      match bv with
      | .error e => .error e
      | .ok current_os_version =>
        match instTypeOf it platform with
        | .error e => .error e
        | .ok instance_type =>
          match level with
          | "minimal" | "full" =>
            .ok { level := level
                  platform := platform
                  original_os_version := original_os_version
                  current_os_version := current_os_version
                  instance_type := instance_type }
          | _ =>
            .ok { level := "minimal"
                  platform := platform
                  original_os_version := original_os_version
                  current_os_version := current_os_version
                  instance_type := instance_type }

/-- `Identity::new` (lines 36-44): dispatch on the configured collecting
level, falling back to "minimal" for unrecognized values, and annotate any
failure with the level being built. -/
def Identity.new (gp ro bv : Except PingerError String)
    (it : String → Except PingerError String) (cfgLevel : String) :
    Except PingerError Identity :=
  match cfgLevel with
  | "minimal" | "full" =>
    withContext ("failed to build \x27" ++ cfgLevel ++ "\x27 identity")
      (Identity.try_default gp ro bv it cfgLevel)
  | _ =>
    withContext "failed to build \x27minimal\x27 identity"
      (Identity.try_default gp ro bv it "minimal")

/-- `Identity::get_data` (lines 77-96), as the association list underlying the
`maplit::hashmap!` literal, in source order. -/
def Identity.get_data (self : Identity) : List (String × String) :=
  [("level", self.level),
   ("platform", self.platform),
   ("original_os_version", self.original_os_version),
   ("current_os_version", self.current_os_version),
   ("instance_type",
     match self.instance_type with
     | some v => v
     | none => "")]

/-- `Identity::mock_default` (lines 98-123), the test-only constructor. -/
def Identity.mock_default (level : String) : Identity :=
  match level with
  | "minimal" =>
    { level := "minimal"
      platform := "mock-qemu"
      original_os_version := "30.20190923.dev.2-2"
      current_os_version := "mock-os-version"
      instance_type := some "mock-instance-type" }
  | "full" =>
    { level := "full"
      platform := "mock-gcp"
      original_os_version := "30.20190923.dev.2-2"
      current_os_version := "mock-os-version"
      instance_type := some "mock-instance-type" }
  | _ =>
    { level := "minimal"
      platform := "mock-qemu"
      original_os_version := "30.20190923.dev.2-2"
      current_os_version := "mock-os-version"
      instance_type := some "mock-instance-type" }

/-- The level normalization performed by the `match level` expressions in
`Identity::new` and `Identity::try_default`: recognized levels pass through,
anything else degrades to "minimal". -/
def normalizeLevel (level : String) : String :=
  match level with
  | "minimal" | "full" => level
  | _ => "minimal"

/-! ### Helper lemmas about the embedded operations -/

theorem withContext_ok {α : Type} (msg : String) (r : Except PingerError α) (a : α) :
    withContext msg r = .ok a ↔ r = .ok a := by
  cases r <;> simp [withContext]

theorem instTypeOf_spec (it : String → Except PingerError String) (p : String) :
    (p ∈ cloudPlatforms ∧ instTypeOf it p =
       (match it p with | .error e => Except.error e | .ok t => Except.ok (some t))) ∨
    (p ∉ cloudPlatforms ∧ instTypeOf it p = .ok none) := by
  unfold instTypeOf
  split
  next => exact Or.inl ⟨by simp [cloudPlatforms], rfl⟩
  next => exact Or.inl ⟨by simp [cloudPlatforms], rfl⟩
  next => exact Or.inl ⟨by simp [cloudPlatforms], rfl⟩
  next => exact Or.inl ⟨by simp [cloudPlatforms], rfl⟩
  next => exact Or.inl ⟨by simp [cloudPlatforms], rfl⟩
  next h1 h2 h3 h4 h5 =>
    refine Or.inr ⟨?_, rfl⟩
    simp only [cloudPlatforms, List.mem_cons, List.not_mem_nil, or_false, not_or]
    exact ⟨h1, h2, h3, h4, h5⟩

theorem normalizeLevel_of_ne (lvl : String) (h1 : lvl ≠ "minimal") (h2 : lvl ≠ "full") :
    normalizeLevel lvl = "minimal" := by
  unfold normalizeLevel
  split
  next => exact absurd rfl h1
  next => exact absurd rfl h2
  next => rfl

theorem normalizeLevel_mem (lvl : String) :
    normalizeLevel lvl = "minimal" ∨ normalizeLevel lvl = "full" := by
  unfold normalizeLevel
  split
  next => exact Or.inl rfl
  next => exact Or.inr rfl
  next => exact Or.inl rfl

theorem normalizeLevel_of_notmem (lvl : String)
    (h : lvl ∉ (["minimal", "full"] : List String)) : normalizeLevel lvl = "minimal" := by
  simp only [List.mem_cons, List.not_mem_nil, or_false, not_or] at h
  exact normalizeLevel_of_ne lvl h.1 h.2

theorem normalizeLevel_idem (lvl : String) :
    normalizeLevel (normalizeLevel lvl) = normalizeLevel lvl := by
  rcases normalizeLevel_mem lvl with h | h <;> rw [h] <;> rfl

theorem try_default_ok_shape (p o c : String) (it : String → Except PingerError String)
    (lvl : String) :
    Identity.try_default (.ok p) (.ok o) (.ok c) it lvl =
      match instTypeOf it p with
      | .error e => .error e
      | .ok iopt =>
        .ok { level := normalizeLevel lvl, platform := p, original_os_version := o,
              current_os_version := c, instance_type := iopt } := by
  simp only [Identity.try_default]
  split
  next => rfl
  next =>
    split
    next => rfl
    next => rfl
    next h1 h2 => rw [normalizeLevel_of_ne _ h1 h2]

theorem try_default_ok_level (gp ro bv : Except PingerError String)
    (it : String → Except PingerError String) (lvl : String) (id : Identity)
    (h : Identity.try_default gp ro bv it lvl = .ok id) : id.level = normalizeLevel lvl := by
  cases gp with
  | error e => simp [Identity.try_default] at h
  | ok p =>
    cases ro with
    | error e => simp [Identity.try_default] at h
    | ok o =>
      cases bv with
      | error e => simp [Identity.try_default] at h
      | ok c =>
        rw [try_default_ok_shape] at h
        cases hin : instTypeOf it p with
        | error e => rw [hin] at h; simp at h
        | ok iopt =>
          rw [hin] at h
          simp only [Except.ok.injEq] at h
          subst h
          rfl

theorem new_ok (gp ro bv : Except PingerError String)
    (it : String → Except PingerError String) (lvl : String) (id : Identity)
    (h : Identity.new gp ro bv it lvl = .ok id) :
    Identity.try_default gp ro bv it (normalizeLevel lvl) = .ok id := by
  unfold Identity.new at h
  split at h
  next => exact (withContext_ok _ _ _).mp h
  next => exact (withContext_ok _ _ _).mp h
  next h1 h2 =>
    rw [normalizeLevel_of_ne lvl h1 h2]
    exact (withContext_ok _ _ _).mp h

/-! ### Claim theorems -/

/-- C1, counterexample: the claim ranges over every constructed `Identity`,
but `Identity::mock_default` constructs a record whose platform "mock-qemu" is
outside the recognized cloud-provider set while its `instance_type` is
`Some("mock-instance-type")`, violating the stated equivalence. -/
theorem c1_counterexample :
    (Identity.mock_default "minimal").platform ∉ cloudPlatforms ∧
    (Identity.mock_default "minimal").instance_type.isSome = true := by
  constructor
  · simp [Identity.mock_default, cloudPlatforms]
  · rfl

/-- C1, amended: for every `Identity` constructed by `Identity::try_default`
(the production assembly path), `instance_type` is `Some(_)` iff `platform` is
in the recognized cloud-provider set, and for a platform outside that set the
result does not depend on the instance-type resolver at all (it is never
invoked). -/
theorem c1_instance_type_iff_cloud
    (gp ro bv : Except PingerError String) (it : String → Except PingerError String)
    (lvl : String) (id : Identity)
    (h : Identity.try_default gp ro bv it lvl = .ok id) :
    (id.instance_type.isSome = true ↔ id.platform ∈ cloudPlatforms) ∧
    (id.platform ∉ cloudPlatforms →
      ∀ g : String → Except PingerError String,
        Identity.try_default gp ro bv g lvl = .ok id) := by
  cases gp with
  | error e => simp [Identity.try_default] at h
  | ok p =>
    cases ro with
    | error e => simp [Identity.try_default] at h
    | ok o =>
      cases bv with
      | error e => simp [Identity.try_default] at h
      | ok c =>
        rw [try_default_ok_shape] at h
        cases hin : instTypeOf it p with
        | error e => rw [hin] at h; simp at h
        | ok iopt =>
          rw [hin] at h
          simp only [Except.ok.injEq] at h
          subst h
          rcases instTypeOf_spec it p with ⟨hc, he⟩ | ⟨hnc, he⟩
          · rw [he] at hin
            cases hit : it p with
            | error e => rw [hit] at hin; simp at hin
            | ok t =>
              rw [hit] at hin
              simp only [Except.ok.injEq] at hin
              subst hin
              constructor
              · simp [hc]
              · intro hn
                exact absurd hc hn
          · rw [he] at hin
            simp only [Except.ok.injEq] at hin
            subst hin
            constructor
            · simp [hnc]
            · intro _ g
              rw [try_default_ok_shape]
              rcases instTypeOf_spec g p with ⟨hc2, _⟩ | ⟨_, he2⟩
              · exact absurd hc2 hnc
              · rw [he2]

/-- Witness for the amended C1 at a concrete non-cloud run. -/
theorem c1_instance_type_iff_cloud_witness :
    ((Identity.mk "minimal" "qemu" "a" "b" none).instance_type.isSome = true ↔
      (Identity.mk "minimal" "qemu" "a" "b" none).platform ∈ cloudPlatforms) ∧
    ((Identity.mk "minimal" "qemu" "a" "b" none).platform ∉ cloudPlatforms →
      ∀ g : String → Except PingerError String,
        Identity.try_default (.ok "qemu") (.ok "a") (.ok "b") g "minimal" =
          .ok (Identity.mk "minimal" "qemu" "a" "b" none)) :=
  c1_instance_type_iff_cloud (.ok "qemu") (.ok "a") (.ok "b") (fun _ => .ok "t")
    "minimal" (Identity.mk "minimal" "qemu" "a" "b" none) rfl

/-- C2: any `Identity` produced by `Identity::new` or directly by
`Identity::try_default` has `level` in {"minimal", "full"}, and for an input
level outside that set the produced record has `level == "minimal"`. -/
theorem c2_level_normalized
    (gp ro bv : Except PingerError String) (it : String → Except PingerError String)
    (lvl : String) (id : Identity)
    (h : Identity.new gp ro bv it lvl = .ok id ∨
      Identity.try_default gp ro bv it lvl = .ok id) :
    (id.level = "minimal" ∨ id.level = "full") ∧
    (lvl ∉ (["minimal", "full"] : List String) → id.level = "minimal") := by
  have hl : id.level = normalizeLevel lvl := by
    rcases h with hn | ht
    · have hlv := try_default_ok_level gp ro bv it (normalizeLevel lvl) id
        (new_ok gp ro bv it lvl id hn)
      rw [hlv, normalizeLevel_idem]
    · exact try_default_ok_level gp ro bv it lvl id ht
  refine ⟨?_, fun hm => ?_⟩
  · rw [hl]
    exact normalizeLevel_mem lvl
  · rw [hl]
    exact normalizeLevel_of_notmem lvl hm

/-- Witness for C2 at the unrecognized level "weird". -/
theorem c2_level_normalized_witness :
    ((Identity.mk "minimal" "qemu" "a" "b" none).level = "minimal" ∨
      (Identity.mk "minimal" "qemu" "a" "b" none).level = "full") ∧
    ("weird" ∉ (["minimal", "full"] : List String) →
      (Identity.mk "minimal" "qemu" "a" "b" none).level = "minimal") :=
  c2_level_normalized (.ok "qemu") (.ok "a") (.ok "b") (fun _ => .ok "t") "weird"
    (Identity.mk "minimal" "qemu" "a" "b" none) (Or.inr rfl)

/-- C3: `get_data` is total for every `Identity` (any level, any platform,
instance type present or absent), and the key list of the returned mapping is
exactly {level, platform, original_os_version, current_os_version,
instance_type} - five keys, no more and no fewer. -/
theorem c3_get_data_keys (id : Identity) :
    id.get_data.map Prod.fst =
      ["level", "platform", "original_os_version", "current_os_version",
       "instance_type"] := rfl

/-- C4: `Identity::new` either returns an `Identity` with all fields filled,
or an error wrapped with the contextual message naming the collection level
being built, with the normalized level for unrecognized inputs; no third
outcome (and hence no partially filled record) exists. -/
theorem c4_new_total_or_context_error
    (gp ro bv : Except PingerError String) (it : String → Except PingerError String)
    (lvl : String) :
    (∃ id, Identity.new gp ro bv it lvl = .ok id) ∨
    (∃ e, Identity.new gp ro bv it lvl =
        .error (.context ("failed to build \x27" ++ normalizeLevel lvl ++ "\x27 identity")
          e)) := by
  unfold Identity.new
  split
  next =>
    cases htd : Identity.try_default gp ro bv it "minimal" with
    | ok id => exact Or.inl ⟨id, rfl⟩
    | error e => exact Or.inr ⟨e, rfl⟩
  next =>
    cases htd : Identity.try_default gp ro bv it "full" with
    | ok id => exact Or.inl ⟨id, rfl⟩
    | error e => exact Or.inr ⟨e, rfl⟩
  next h1 h2 =>
    rw [normalizeLevel_of_ne lvl h1 h2]
    cases htd : Identity.try_default gp ro bv it "minimal" with
    | ok id => exact Or.inl ⟨id, rfl⟩
    | error e => exact Or.inr ⟨e, rfl⟩

/-- C5: `get_data` renders the "instance_type" key as the contained string
when `instance_type` is `Some` and as the empty string when it is `None`. -/
theorem c5_get_data_instance_type_rendering (id : Identity) :
    id.get_data.lookup "instance_type" = some (id.instance_type.getD "") := by
  cases id with
  | mk l p o c it => cases it <;> rfl

/-- C6: for a platform in the recognized cloud-provider set, when the
instance-type resolver yields `t` and the other sub-queries succeed,
`try_default` assembles an `Identity` with `instance_type == Some(t)`,
storing the resolver value unchanged. -/
theorem c6_cloud_instance_type_stored
    (p o c t lvl : String) (it : String → Except PingerError String)
    (hp : p ∈ cloudPlatforms) (hit : it p = .ok t) :
    ∃ id, Identity.try_default (.ok p) (.ok o) (.ok c) it lvl = .ok id ∧
      id.instance_type = some t := by
  rcases instTypeOf_spec it p with ⟨_, he⟩ | ⟨hnc, _⟩
  · rw [try_default_ok_shape, he, hit]
    exact ⟨_, rfl, rfl⟩
  · exact absurd hp hnc

/-- Witness for C6 on the aws platform. -/
theorem c6_cloud_instance_type_stored_witness :
    ∃ id, Identity.try_default (.ok "aws") (.ok "a") (.ok "b")
        (fun _ => Except.ok "m4.large") "minimal" = .ok id ∧
      id.instance_type = some "m4.large" :=
  c6_cloud_instance_type_stored "aws" "a" "b" "m4.large" "minimal"
    (fun _ => Except.ok "m4.large") (by simp [cloudPlatforms]) rfl

/-- C7: two records that agree on platform, versions and instance type but
carry level "minimal" versus "full" flatten to mappings that agree at every
key other than "level" - the "full" level collects exactly the same fields
as "minimal". -/
theorem c7_full_minimal_same_except_level
    (p o c : String) (it : Option String) (k : String) (hk : k ≠ "level") :
    (Identity.mk "minimal" p o c it).get_data.lookup k =
      (Identity.mk "full" p o c it).get_data.lookup k := by
  have hb : (k == "level") = false := by
    cases hbe : k == "level"
    · rfl
    · exact absurd (eq_of_beq hbe) hk
  simp [Identity.get_data, List.lookup, hb]

/-- Witness for C7 at the key "platform". -/
theorem c7_full_minimal_same_except_level_witness :
    (Identity.mk "minimal" "p0" "o0" "c0" none).get_data.lookup "platform" =
      (Identity.mk "full" "p0" "o0" "c0" none).get_data.lookup "platform" :=
  c7_full_minimal_same_except_level "p0" "o0" "c0" none "platform" (by decide)

/-- C8: the mock minimal identity flattens to exactly the documented
five-entry mapping. -/
theorem c8_mock_minimal_round_trip :
    (Identity.mock_default "minimal").get_data =
      [("level", "minimal"),
       ("platform", "mock-qemu"),
       ("original_os_version", "30.20190923.dev.2-2"),
       ("current_os_version", "mock-os-version"),
       ("instance_type", "mock-instance-type")] := rfl

/-- C9: flattening is not injective at the instance-type field: a record with
`instance_type == None` and one with `instance_type == Some("")` are distinct
records yet flatten to equal mappings. -/
theorem c9_flatten_not_injective_at_instance_type (l p o c : String) :
    (Identity.mk l p o c none).get_data = (Identity.mk l p o c (some "")).get_data ∧
    Identity.mk l p o c none ≠ Identity.mk l p o c (some "") :=
  ⟨rfl, by simp⟩

/-- C10: `get_data` is a deterministic pure function of the five fields: any
two records with equal field values flatten to equal mappings. -/
theorem c10_get_data_deterministic (id1 id2 : Identity)
    (h1 : id1.level = id2.level) (h2 : id1.platform = id2.platform)
    (h3 : id1.original_os_version = id2.original_os_version)
    (h4 : id1.current_os_version = id2.current_os_version)
    (h5 : id1.instance_type = id2.instance_type) :
    id1.get_data = id2.get_data := by
  have hid : id1 = id2 := by
    cases id1
    cases id2
    simp_all
  rw [hid]

/-- Witness for C10 at a concrete pair of records with equal fields. -/
theorem c10_get_data_deterministic_witness :
    (Identity.mk "minimal" "q" "a" "b" none).get_data =
      (Identity.mk "minimal" "q" "a" "b" none).get_data :=
  c10_get_data_deterministic (Identity.mk "minimal" "q" "a" "b" none)
    (Identity.mk "minimal" "q" "a" "b" none) rfl rfl rfl rfl rfl
